import Mathlib

/-!
Verification development for the ai-news-agent pipeline
(collection → enrichment → ranking, plus the chat-bot digest cache).

The Python sources are shallowly embedded:
* `ai_news_agent.py` — RSS/Reddit collection (`process_rss_feed`,
  `collect_reddit_posts`), Gemini enrichment (`analyze_with_gemini`,
  `analyze_articles`), digest selection (`generate_email_digest`).
* `telegram_bot.py` — per-article enrichment fallback
  (`analyze_articles_with_ai`) and the 30-minute digest cache
  (`latest_news` / `collect_news`).

Article records are Python dicts; optional keys become `Option` fields
(`none` = key absent, read sites use `.getD` mirroring `dict.get` with its
default). Network and JSON-library boundaries are embedded as inductive
outcomes: the adapters' parsed payloads are inputs to the model, and each
failure mode of the surrounding code is a constructor. Timestamps are
seconds as `Nat`.
-/

namespace NewsAgent

/-- An article record as built by `ai_news_agent.py`. The first six fields
are the keys always present after collection; the remaining ones are the
keys added later (absent = `none`). `origin` is the dict's `type` key. -/
structure Article where
  title : String
  url : String
  source : String
  description : String
  published : Nat
  origin : String
  redditScore : Option Nat := none
  relevance_score : Option Int := none
  category : Option String := none
  key_insights : List String := []
  importance_level : Option String := none
  ai_summary : Option String := none
  key_points : List String := []
  sentiment : Option String := none
deriving DecidableEq

/-- One feedparser entry: the fields `process_rss_feed` reads. `none`
models a missing attribute / failed date parse; summary and description
carry the text BeautifulSoup extracts. -/
structure Entry where
  etitle : Option String := none
  link : Option String := none
  summaryText : Option String := none
  descriptionText : Option String := none
  published_parsed : Option Nat := none
  updated_parsed : Option Nat := none
deriving DecidableEq

/-- One Reddit post's fields read by `collect_reddit_posts`
(`post['data']`). `score` is optional because the code reads it with
`post_data.get('score', 0)`. -/
structure RedditPost where
  ptitle : String
  permalink : String
  selftext : String
  created_utc : Nat
  score : Option Nat := none
deriving DecidableEq

/-- Outcome of fetching and parsing one RSS source inside
`process_rss_feed`: `fetchFail` is `fetch_url` returning `None` (non-200,
network error, timeout), `raised` is any exception caught by the handler
at the end of `process_rss_feed`, `ok` carries the parsed entries. -/
inductive FetchOutcome where
  | fetchFail
  | raised
  | ok (entries : List Entry)
deriving DecidableEq

/-- Whitespace as matched by the regex class used in
`re.sub(r'\s+', ' ', description)`. -/
def isWs (c : Char) : Bool :=
  c == ' ' || c == '\t' || c == '\n' || c == '\r' || c == '\x0b' || c == '\x0c'

/-- Collapse each maximal whitespace run to a single space
(`re.sub(r'\s+', ' ', _)`); the flag records whether the previous
character was whitespace. -/
def collapseWsAux : List Char → Bool → List Char
  | [], _ => []
  | c :: cs, prevWs =>
    if isWs c then
      if prevWs then collapseWsAux cs true
      else ' ' :: collapseWsAux cs true
    else c :: collapseWsAux cs false

/-- `description = re.sub(r'\s+', ' ', description).strip()` followed by
the 500-character truncation with the `...` marker
(`ai_news_agent.py` lines 118-120). -/
def cleanDescription (s : String) : String :=
  let t := (String.mk (collapseWsAux s.toList false)).trim
  if t.length > 500 then t.take 500 ++ "..." else t

/-- The per-entry body of `process_rss_feed`'s loop (lines 94-131):
resolve the publication date (`published_parsed`, else `updated_parsed`),
skip entries older than the cutoff, default the title and link, build the
description from `summary` else `description`, and default the published
stamp to `now`. Returns `none` when the entry is skipped. -/
def processEntry (sourceName : String) (now cutoff : Nat) (e : Entry) :
    Option Article :=
  let pubDate : Option Nat :=
    match e.published_parsed with
    | some t => some t
    | none => e.updated_parsed
  let tooOld : Bool :=
    match pubDate with
    | some t => t < cutoff
    | none => false
  if tooOld then none
  else
    let rawDescription : String :=
      match e.summaryText with
      | some s => s
      | none => (e.descriptionText).getD ""
    some
      { title := e.etitle.getD "No title"
        url := e.link.getD ""
        source := sourceName
        description := cleanDescription rawDescription
        published := pubDate.getD now
        origin := "rss" }

/-- `process_rss_feed` (lines 80-142): a fetch failure or a caught
exception yields `[]`; otherwise the first 10 entries are processed and
the kept ones collected in order. -/
def processRSSFeed (outcome : FetchOutcome) (sourceName : String)
    (now cutoff : Nat) : List Article :=
  match outcome with
  | .fetchFail => []
  | .raised => []
  | .ok entries => (entries.take 10).filterMap (processEntry sourceName now cutoff)

/-- `collect_rss_feeds` (lines 66-78): the per-feed tasks run
concurrently under `asyncio.gather`, and each task extends
`self.collected_articles` itself when it completes (line 137), so the
shared list fills in task-completion order — the gather results are used
only for counting. The argument is therefore the feed list in
task-completion order: network timing makes it an arbitrary permutation
of the configured source list (asyncio is single-threaded, so each
feed's `extend` is atomic — its block is contiguous and in feed order).
A failed source contributes `[]`. -/
def collectRSSFeeds (completed : List (FetchOutcome × String))
    (now cutoff : Nat) : List Article :=
  completed.foldl (fun acc f => acc ++ processRSSFeed f.1 f.2 now cutoff) []

/-- The per-post body of `collect_reddit_posts`'s loop (lines 157-179):
skip posts older than the cutoff or with score below 50; the URL is the
reddit permalink, the source is the `r/`-prefixed subreddit, and a
non-empty selftext is truncated to 500 characters with the marker. -/
def processRedditPost (sub : String) (cutoff : Nat) (p : RedditPost) :
    Option Article :=
  if p.created_utc < cutoff then none
  else if p.score.getD 0 < 50 then none
  else
    some
      { title := p.ptitle
        url := "https://reddit.com" ++ p.permalink
        source := "r/" ++ sub
        description := if p.selftext ≠ "" then p.selftext.take 500 ++ "..." else ""
        published := p.created_utc
        origin := "reddit"
        redditScore := some (p.score.getD 0) }

/-- One subreddit's contribution inside `collect_reddit_posts`: nothing
when the fetch failed, the JSON was bad, or an exception was caught;
otherwise the posts that pass the age and score filters, in listing
order. -/
def processSubreddit (s : String × Option (List RedditPost)) (cutoff : Nat) :
    List Article :=
  match s.2 with
  | none => []
  | some posts => posts.filterMap (processRedditPost s.1 cutoff)

/-- `collect_reddit_posts` (lines 144-188): each subreddit's kept posts
are appended one by one to `self.collected_articles`, in subreddit-list
order. -/
def collectRedditPosts (subs : List (String × Option (List RedditPost)))
    (cutoff : Nat) : List Article :=
  subs.foldl (fun acc s => acc ++ processSubreddit s cutoff) []

/-- The whole collection stage as run by `run_daily_digest` (lines
496-497): `collect_rss_feeds` is awaited to completion before
`collect_reddit_posts` starts, so all RSS articles (in task-completion
order, see `collectRSSFeeds`) precede all Reddit articles (in
subreddit-list order) in the shared `self.collected_articles` list. -/
def collectAll (completed : List (FetchOutcome × String))
    (subs : List (String × Option (List RedditPost))) (now cutoff : Nat) :
    List Article :=
  collectRSSFeeds completed now cutoff ++ collectRedditPosts subs cutoff

/-- Two article records that agree on the dedup key (source, url). -/
def sameKey (a b : Article) : Bool :=
  a.source == b.source && a.url == b.url

/-- Whether some (source, url) pair occurs twice in the list. -/
def hasDupKey : List Article → Bool
  | [] => false
  | a :: rest => rest.any (sameKey a) || hasDupKey rest

/-- One per-article object of the parsed Gemini response
(`analysis.get('articles', [])` elements); every key is read with
`dict.get` and a default, so each field is optional. -/
structure Analysis where
  relevance_score : Option Int := none
  category : Option String := none
  key_insights : Option (List String) := none
  importance_level : Option String := none
  summary : Option String := none
deriving DecidableEq

/-- Outcome of one `analyze_with_gemini` call (lines 190-263):
`raised` is any exception inside the outer try (network error,
`response.json()` failure, wrong shapes), `httpError` is a non-200
status, `parseFail` is a `json.JSONDecodeError` on the candidate text,
`noCandidates` is a 200 response whose JSON has no non-empty
`candidates` list, and `parsed` carries the per-article list the parsed
JSON's `articles` key held (`[]` when the key was absent). -/
inductive ScoringResult where
  | raised
  | httpError
  | parseFail
  | noCandidates
  | parsed (articlesField : List Analysis)
deriving DecidableEq

/-- The value `analyze_with_gemini` returns: `[]` on every handled
failure path, the parsed list on success, and — faithfully to the
source — Python `None` (here `none`) on the 200-without-candidates path,
which falls off the end of the function without a `return`. -/
def analyzeWithGemini : ScoringResult → Option (List Analysis)
  | .raised => some []
  | .httpError => some []
  | .parseFail => some []
  | .noCandidates => none
  | .parsed l => some l

/-- The dict update at lines 287-293: each analysis key is read with
`get` and its default (50, `Other`, `[]`, `medium`, the empty summary)
and written onto the article record. No clamping or validation occurs. -/
def updateArticle (a : Article) (an : Analysis) : Article :=
  { a with
    relevance_score := some (an.relevance_score.getD 50)
    category := some (an.category.getD "Other")
    key_insights := an.key_insights.getD []
    importance_level := some (an.importance_level.getD "medium")
    ai_summary := some (an.summary.getD "") }

/-- The inner matching loop of `analyze_articles` (lines 282-293):
`for j, analysis in enumerate(batch_analysis)`, guarded by
`j < len(batch)` and `article_index < len(self.collected_articles)`,
updating the shared article list at position `i + j`. -/
def applyBatchAux (arts : List Article) (i j batchLen : Nat) :
    List Analysis → List Article
  | [] => arts
  | an :: rest =>
    let arts' :=
      if j < batchLen && i + j < arts.length then
        match arts.get? (i + j) with
        | some a => arts.set (i + j) (updateArticle a an)
        | none => arts
      else arts
    applyBatchAux arts' i (j + 1) batchLen rest

/-- The outer batch loop of `analyze_articles`
(`for i in range(0, len(self.collected_articles), batch_size)` with
`batch_size = 5`): batch `b` covers indices `5*b` to `5*b + 4`, the
oracle gives each batch's scoring outcome, and the `none` value of the
200-without-candidates path makes `enumerate(batch_analysis)` raise a
`TypeError`, aborting the loop (`none` result). The fuel argument is the
number of remaining loop iterations. -/
def analyzeMergeGo (oracle : Nat → ScoringResult) :
    List Article → Nat → Nat → Option (List Article)
  | arts, _, 0 => some arts
  | arts, b, Nat.succ k =>
    match analyzeWithGemini (oracle b) with
    | none => none
    | some analyses =>
      analyzeMergeGo oracle
        (applyBatchAux arts (5 * b) 0 (min 5 (arts.length - 5 * b)) analyses)
        (b + 1) k

/-- The number of iterations of `range(0, n, 5)`. -/
def numBatches (n : Nat) : Nat := (n + 4) / 5

/-- The whole batch-merge phase of `analyze_articles` applied to the
collected article list. -/
def analyzeMerge (arts : List Article) (oracle : Nat → ScoringResult) :
    Option (List Article) :=
  analyzeMergeGo oracle arts 0 (numBatches arts.length)

/-- `x.get('relevance_score', 0)` as used by the sort key and the
average. -/
def relGetD0 (a : Article) : Int := a.relevance_score.getD 0

/-- The comparison realised by
`sort(key=lambda x: x.get('relevance_score', 0), reverse=True)`:
`a` may come before `b` iff `a`'s score is at least `b`'s. -/
def scoreLe (a b : Article) : Bool := relGetD0 b ≤ relGetD0 a

/-- The in-place sort at lines 301-302. Python's `list.sort` is a stable
mergesort; `List.mergeSort` has exactly that contract (stable, sorted
w.r.t. the Boolean comparison), so the two agree on every input. -/
def sortByRelevance (l : List Article) : List Article := l.mergeSort scoreLe

/-- Result of one `analyze_articles` run: the early return when nothing
was collected (lines 267-269), the uncaught `TypeError` described at
`analyzeMergeGo`, or the sorted list together with the numerator and
denominator of the average-relevance expression at line 304. -/
inductive AnalyzeResult where
  | noArticles
  | crashed
  | done (sorted : List Article) (avgNum : Int) (avgDen : Nat)
deriving DecidableEq

/-- `analyze_articles` (lines 265-304): early return on an empty list,
then the batch merge, then the sort, then the average over the full
list. -/
def analyzeArticles (arts : List Article) (oracle : Nat → ScoringResult) :
    AnalyzeResult :=
  if arts.isEmpty then .noArticles
  else
    match analyzeMerge arts oracle with
    | none => .crashed
    | some merged =>
      let sorted := sortByRelevance merged
      .done sorted ((sorted.map relGetD0).sum) sorted.length

/-- The digest selection in `generate_email_digest` (lines 311-315):
keep articles scoring at least 60, truncated to 15; if none qualify,
fall back to the first 10 of the unfiltered list. -/
def topArticlesSelect (arts : List Article) : List Article :=
  let top := (arts.filter (fun a => (60 : Int) ≤ relGetD0 a)).take 15
  if top.isEmpty then arts.take 10 else top

/-- `generate_email_digest` (lines 306-315) up to HTML rendering:
`None` on an empty article list, otherwise the selected articles. -/
def generateEmailDigest (arts : List Article) : Option (List Article) :=
  if arts.isEmpty then none else some (topArticlesSelect arts)

/-- An article record as built by `telegram_bot.collect_news`; the
enrichment keys are absent until `analyze_articles_with_ai` adds them.
Scores are rationals because the bot stores fractional literals
(7.5, 7.0). -/
structure TGArticle where
  title : String
  link : String
  summary : String
  published : String
  source : String
  timestamp : Nat
  relevance_score : Option ℚ := none
  category : Option String := none
  key_points : List String := []
  sentiment : Option String := none
deriving DecidableEq

/-- The parsed JSON object of one per-article Gemini reply in
`telegram_bot.analyze_articles_with_ai`; `article.update(ai_analysis)`
copies exactly the keys present. -/
structure TGAnalysis where
  relevance_score : Option ℚ := none
  category : Option String := none
  key_points : Option (List String) := none
  sentiment : Option String := none
deriving DecidableEq

/-- Outcome of one per-article scoring call in the bot:
an exception anywhere in the per-article try (request failure, JSON
parse failure, shape errors), a non-200 status, or a parsed object. -/
inductive TGOutcome where
  | raised
  | httpError
  | ok (an : TGAnalysis)
deriving DecidableEq

/-- `article.update(ai_analysis)` (line 151): keys present in the parsed
object overwrite the article's, absent keys leave it untouched. -/
def tgUpdate (a : TGArticle) (an : TGAnalysis) : TGArticle :=
  { a with
    relevance_score :=
      match an.relevance_score with
      | some v => some v
      | none => a.relevance_score
    category :=
      match an.category with
      | some c => some c
      | none => a.category
    key_points :=
      match an.key_points with
      | some l => l
      | none => a.key_points
    sentiment :=
      match an.sentiment with
      | some s => some s
      | none => a.sentiment }

/-- The bot's per-article fallback (lines 153-164): score 7.0, category
`General`, empty key points, neutral sentiment. -/
def tgFallback (a : TGArticle) : TGArticle :=
  { a with
    relevance_score := some 7
    category := some "General"
    key_points := []
    sentiment := some "neutral" }

/-- The no-API-key path (lines 105-110): every article gets score 7.5
and category `General`; key points and sentiment are not touched. -/
def tgNoKeyMark (a : TGArticle) : TGArticle :=
  { a with relevance_score := some (15 / 2 : ℚ), category := some "General" }

/-- `telegram_bot.analyze_articles_with_ai` (lines 103-168): without an
API key, mark every article; otherwise process articles one by one, the
oracle giving each call's outcome, updating on success and falling back
on any error. -/
def analyzeArticlesWithAI (hasKey : Bool) (oracle : Nat → TGOutcome)
    (articles : List TGArticle) : List TGArticle :=
  if hasKey = false then articles.map tgNoKeyMark
  else
    articles.enum.map fun ia =>
      match oracle ia.1 with
      | .ok an => tgUpdate ia.2 an
      | .raised => tgFallback ia.2
      | .httpError => tgFallback ia.2

/-- `timedelta.seconds` for a non-negative elapsed time: the seconds
component after whole days are split off — NOT the total elapsed
seconds. -/
def tdSeconds (elapsed : Nat) : Nat := elapsed % 86400

/-- The bot's mutable digest-cache state (`self.articles_cache`,
`self.last_update`). -/
structure BotState where
  articles_cache : List TGArticle
  last_update : Option Nat
deriving DecidableEq

/-- The staleness test of `latest_news` (lines 173-174):
`not self.articles_cache or not self.last_update or
(datetime.now() - self.last_update).seconds > 1800`. -/
def needsRefresh (s : BotState) (now : Nat) : Bool :=
  s.articles_cache.isEmpty || s.last_update.isNone ||
    (match s.last_update with
     | some t => tdSeconds (now - t) > 1800
     | none => true)

/-- The cache write at the end of `collect_news` (lines 96-99): the new
articles and the build time replace the state wholesale. -/
def collectNews (now : Nat) (fresh : List TGArticle) : BotState :=
  { articles_cache := fresh, last_update := some now }

/-- The cache-management step of `latest_news` (lines 172-176): rebuild
when stale, otherwise serve the existing state unchanged. `fresh` is
what a rebuild would collect. -/
def latestNewsCacheStep (s : BotState) (now : Nat) (fresh : List TGArticle) :
    BotState :=
  if needsRefresh s now then collectNews now fresh else s

/-- The closed category set named by the spec's data model. -/
def allowedCategories : List String :=
  ["AI/ML", "Technology", "Business", "Science", "Startups", "Programming",
   "Other"]

/-- The ordering property the spec claims for the ranked output: scores
non-increasing, and equal scores ordered by published timestamp
descending. -/
def rankedByScoreThenDate (l : List Article) : Prop :=
  l.Pairwise fun a b =>
    relGetD0 b ≤ relGetD0 a ∧ (relGetD0 a = relGetD0 b → b.published ≤ a.published)

instance (l : List Article) : Decidable (rankedByScoreThenDate l) :=
  List.instDecidablePairwise l

/-- Concrete fixture: a feed entry promoting a link. -/
def cEntryA : Entry :=
  { etitle := some "A", link := some "https://ex.com/a", published_parsed := some 100 }

/-- Concrete fixture: a second entry of the same feed with the same
link. -/
def cEntryB : Entry :=
  { etitle := some "B", link := some "https://ex.com/a", published_parsed := some 90 }

/-- Concrete fixture: one collected, not yet enriched article record. -/
def cRaw : Article :=
  { title := "t", url := "u", source := "s", description := ""
    published := 0, origin := "rss" }

/-- Concrete fixture: an enriched article, score 50, published at 10. -/
def cA1 : Article :=
  { title := "earlier", url := "u1", source := "s", description := ""
    published := 10, origin := "rss", relevance_score := some 50 }

/-- Concrete fixture: an enriched article, score 50, published at 20. -/
def cA2 : Article :=
  { title := "later", url := "u2", source := "s", description := ""
    published := 20, origin := "rss", relevance_score := some 50 }

/-- Concrete fixture: a cached bot article. -/
def cTG : TGArticle :=
  { title := "t", link := "", summary := "", published := "", source := ""
    timestamp := 0 }

/-- Concrete fixture: a configured RSS source with one entry. -/
def cFeedA : FetchOutcome × String := (FetchOutcome.ok [cEntryA], "F1")

/-- Concrete fixture: a second configured RSS source with one entry. -/
def cFeedB : FetchOutcome × String := (FetchOutcome.ok [cEntryB], "F2")

/-- Concrete fixture: a service reply scoring an article at 150. -/
def cAn150 : Analysis := { relevance_score := some 150 }

/-- Concrete fixture: a service reply with a category outside the
spec's closed set. -/
def cAnPol : Analysis := { category := some "Politics" }

/-- Concrete fixture: a well-formed service reply. -/
def cAnAI : Analysis := { relevance_score := some 80, category := some "AI/ML" }

end NewsAgent

namespace NewsAgent

theorem foldl_append_flatten {α β : Type} (f : β → List α) :
    ∀ (l : List β) (acc : List α),
      l.foldl (fun a x => a ++ f x) acc = acc ++ (l.map f).flatten := by
  intro l
  induction l with
  | nil => intro acc; simp
  | cons x xs ih =>
    intro acc
    simp only [List.foldl_cons, List.map_cons, List.flatten_cons]
    rw [ih, List.append_assoc]

theorem scoreLe_trans (a b c : Article) (hab : scoreLe a b = true)
    (hbc : scoreLe b c = true) : scoreLe a c = true := by
  simp only [scoreLe, decide_eq_true_eq] at *
  exact le_trans hbc hab

theorem scoreLe_total (a b : Article) : (scoreLe a b || scoreLe b a) = true := by
  simp only [scoreLe, Bool.or_eq_true, decide_eq_true_eq]
  exact Int.le_total (relGetD0 b) (relGetD0 a)

theorem applyBatchAux_length :
    ∀ (ans : List Analysis) (arts : List Article) (i j bl : Nat),
      (applyBatchAux arts i j bl ans).length = arts.length := by
  intro ans
  induction ans with
  | nil => intro arts i j bl; rfl
  | cons an rest ih =>
    intro arts i j bl
    simp only [applyBatchAux]
    rw [ih]
    split
    · split
      · exact List.length_set ..
      · rfl
    · rfl

theorem analyzeMergeGo_length (oracle : Nat → ScoringResult) :
    ∀ (k : Nat) (arts : List Article) (b : Nat) (res : List Article),
      analyzeMergeGo oracle arts b k = some res → res.length = arts.length := by
  intro k
  induction k with
  | zero =>
    intro arts b res h
    simp only [analyzeMergeGo, Option.some.injEq] at h
    rw [← h]
  | succ k ih =>
    intro arts b res h
    simp only [analyzeMergeGo] at h
    cases hg : analyzeWithGemini (oracle b) with
    | none => rw [hg] at h; exact absurd h (by simp)
    | some analyses =>
      rw [hg] at h
      have := ih _ _ _ h
      rw [this, applyBatchAux_length]

theorem applyBatchAux_get_outside :
    ∀ (ans : List Analysis) (arts : List Article) (i j bl m : Nat),
      (m < i ∨ i + bl ≤ m) →
      (applyBatchAux arts i j bl ans).get? m = arts.get? m := by
  intro ans
  induction ans with
  | nil => intro arts i j bl m _; rfl
  | cons an rest ih =>
    intro arts i j bl m hm
    simp only [applyBatchAux]
    rw [ih _ _ _ _ _ hm]
    split
    · rename_i hcond
      simp only [Bool.and_eq_true, decide_eq_true_eq] at hcond
      split
      · apply List.get?_set_ne
        omega
      · rfl
    · rfl

theorem analyzeMergeGo_get_failedBatch (oracle : Nat → ScoringResult) :
    ∀ (k : Nat) (arts : List Article) (b : Nat) (res : List Article) (m : Nat),
      analyzeMergeGo oracle arts b k = some res →
      analyzeWithGemini (oracle (m / 5)) = some [] →
      res.get? m = arts.get? m := by
  intro k
  induction k with
  | zero =>
    intro arts b res m h _
    simp only [analyzeMergeGo, Option.some.injEq] at h
    rw [← h]
  | succ k ih =>
    intro arts b res m h hfail
    simp only [analyzeMergeGo] at h
    cases hg : analyzeWithGemini (oracle b) with
    | none => rw [hg] at h; exact absurd h (by simp)
    | some analyses =>
      rw [hg] at h
      by_cases hb : b = m / 5
      · rw [hb, hfail] at hg
        have hempty : analyses = [] := by
          injection hg with hg'
          exact hg'.symm
        rw [hempty] at h
        exact ih arts (b + 1) res m h hfail
      · have houter : m < 5 * b ∨ 5 * b + min 5 (arts.length - 5 * b) ≤ m := by
          rcases Nat.lt_or_ge (m / 5) b with hlt | hge
          · left; omega
          · right
            have hbm : b < m / 5 := lt_of_le_of_ne hge hb
            have h5 : 5 * b + 5 ≤ m := by omega
            have hmin : min 5 (arts.length - 5 * b) ≤ 5 := Nat.min_le_left ..
            omega
        have hstep := applyBatchAux_get_outside analyses arts (5 * b) 0
          (min 5 (arts.length - 5 * b)) m houter
        rw [← hstep]
        exact ih _ _ _ _ h hfail

end NewsAgent

namespace NewsAgent

/-- C1, counterexample. The collection stage applies no deduplication:
a feed whose entry list repeats a link yields two collected articles
with the same (source, url) pair, so the claimed invariant fails on
this source list. -/
theorem C1_counterexample :
    hasDupKey (collectAll [(FetchOutcome.ok [cEntryA, cEntryB], "FeedX")] [] 100 50)
      = true := by
  decide

/-- C1, amended. No deduplication by (source, url) is applied: whatever
completion order the concurrent RSS fetches happen to finish in (any
permutation of the configured source list), the collected sequence is a
permutation of the union — the source-order concatenation of every
source's filtered items — so every kept item survives with its
multiplicity and equal keys may occur more than once. -/
theorem C1_amended_union (feeds completed : List (FetchOutcome × String))
    (subs : List (String × Option (List RedditPost))) (now cutoff : Nat)
    (hsched : completed.Perm feeds) :
    (collectAll completed subs now cutoff).Perm
      ((feeds.map fun f => processRSSFeed f.1 f.2 now cutoff).flatten ++
        (subs.map fun s => processSubreddit s cutoff).flatten) := by
  have h1 : collectAll completed subs now cutoff =
      (completed.map fun f => processRSSFeed f.1 f.2 now cutoff).flatten ++
        (subs.map fun s => processSubreddit s cutoff).flatten := by
    simp [collectAll, collectRSSFeeds, collectRedditPosts, foldl_append_flatten]
  rw [h1]
  exact ((hsched.map fun f => processRSSFeed f.1 f.2 now cutoff).join).append_right _

/-- C1, witness for the amended theorem: two sources completing in the
opposite of their configured order still collect a permutation of the
source-order union. -/
theorem C1_amended_witness :
    (collectAll [cFeedB, cFeedA] [] 100 50).Perm
      (([cFeedA, cFeedB].map fun f => processRSSFeed f.1 f.2 100 50).flatten ++
        (([] : List (String × Option (List RedditPost))).map
            fun s => processSubreddit s 50).flatten) :=
  C1_amended_union [cFeedA, cFeedB] [cFeedB, cFeedA] [] 100 50
    (List.Perm.swap cFeedA cFeedB [])

/-- C2, counterexample. When the scoring call raises, the batch's
articles do NOT end the enrichment stage carrying the fallback values:
`analyze_with_gemini` returns `[]`, the matching loop runs zero times,
and the article keeps no category, no relevance_score and no sentiment
key at all. -/
theorem C2_counterexample :
    analyzeMerge [cRaw] (fun _ => ScoringResult.raised) = some [cRaw] ∧
      cRaw.category ≠ some "Other" ∧ cRaw.relevance_score = none ∧
      cRaw.sentiment ≠ some "neutral" := by
  refine ⟨by decide, by decide, rfl, by decide⟩

/-- C2, amended. If a batch's scoring call raises, returns a non-200
status, or returns a body that is not valid JSON, every article of that
batch leaves the enrichment stage exactly as it entered it — the
enrichment keys are not added; the fixed defaults (50, `Other`, …) are
substituted only at later read sites via `dict.get`. -/
theorem C2_amended_failed_batch_unchanged (arts : List Article)
    (oracle : Nat → ScoringResult) (res : List Article) (m : Nat)
    (hrun : analyzeMerge arts oracle = some res)
    (hfail : oracle (m / 5) = ScoringResult.raised ∨
      oracle (m / 5) = ScoringResult.httpError ∨
      oracle (m / 5) = ScoringResult.parseFail) :
    res.get? m = arts.get? m := by
  have hg : analyzeWithGemini (oracle (m / 5)) = some [] := by
    rcases hfail with h | h | h <;> rw [h] <;> rfl
  exact analyzeMergeGo_get_failedBatch oracle _ arts 0 res m hrun hg

/-- C2, witness for the amended theorem at a concrete failing batch. -/
theorem C2_amended_witness :
    ∃ res, analyzeMerge [cRaw] (fun _ => ScoringResult.raised) = some res ∧
      res.get? 0 = [cRaw].get? 0 :=
  ⟨[cRaw], by decide,
    C2_amended_failed_batch_unchanged [cRaw] (fun _ => ScoringResult.raised)
      [cRaw] 0 (by decide) (Or.inl rfl)⟩

/-- C3. A source whose adapter raises (or whose fetch fails) contributes
the empty sequence and never aborts or loses the sibling fetches: the
collection result equals that of the source list without it. -/
theorem C3_failed_source_isolated (xs ys : List (FetchOutcome × String))
    (src : String) (subs : List (String × Option (List RedditPost)))
    (now cutoff : Nat) :
    collectAll (xs ++ (FetchOutcome.raised, src) :: ys) subs now cutoff =
        collectAll (xs ++ ys) subs now cutoff ∧
      collectAll (xs ++ (FetchOutcome.fetchFail, src) :: ys) subs now cutoff =
        collectAll (xs ++ ys) subs now cutoff := by
  constructor <;>
    simp [collectAll, collectRSSFeeds, foldl_append_flatten, processRSSFeed]

end NewsAgent

namespace NewsAgent

/-- C4, counterexample. The sort at the end of `analyze_articles` keys
only on relevance_score; Python's stable sort keeps equal-score items in
input order, so with two equal-score articles published at 10 and 20 (in
that input order) the later-published one does NOT come first. -/
theorem C4_counterexample :
    ¬ rankedByScoreThenDate (sortByRelevance [cA1, cA2]) := by
  have hs : sortByRelevance [cA1, cA2] = [cA1, cA2] :=
    List.mergeSort_of_sorted (by decide)
  rw [hs]
  decide

/-- C4, amended. The ranked output is sorted non-increasing by
relevance_score (absent scores reading as 0); items with equal score
keep their relative input order (the sort is stable) — published_at is
not consulted. -/
theorem C4_amended_sorted_stable :
    (∀ l : List Article,
        (sortByRelevance l).Pairwise fun a b => scoreLe a b = true) ∧
      ∀ (l : List Article) (a b : Article), relGetD0 a = relGetD0 b →
        [a, b].Sublist l → [a, b].Sublist (sortByRelevance l) := by
  constructor
  · intro l
    exact List.sorted_mergeSort scoreLe_trans scoreLe_total l
  · intro l a b heq hsub
    exact List.mergeSort_stable_pair scoreLe_trans scoreLe_total
      (by simp [scoreLe, heq]) hsub

/-- C4, witness for the amended theorem at a concrete two-article tie. -/
theorem C4_amended_witness :
    (sortByRelevance [cA1, cA2]).Pairwise (fun a b => scoreLe a b = true) ∧
      [cA1, cA2].Sublist (sortByRelevance [cA1, cA2]) :=
  ⟨C4_amended_sorted_stable.1 [cA1, cA2],
    C4_amended_sorted_stable.2 [cA1, cA2] cA1 cA2 (by decide)
      (List.Sublist.refl _)⟩

/-- C5. For every non-empty article list, the digest selection of
`generate_email_digest` is non-empty: when no article reaches the
score-60 filter it falls back to the first ten articles of the
unfiltered list. -/
theorem C5_nonempty_digest (a : Article) (rest : List Article) :
    generateEmailDigest (a :: rest) = some (topArticlesSelect (a :: rest)) ∧
      topArticlesSelect (a :: rest) ≠ [] := by
  constructor
  · simp [generateEmailDigest]
  · simp only [topArticlesSelect]
    split
    · simp
    · rename_i h
      simpa using h

/-- C6, counterexample. The merge step stores the service's
relevance_score verbatim: a reply of 150 is stored as 150, outside the
declared 0-100 range — no clamping happens. -/
theorem C6_counterexample :
    analyzeMerge [cRaw] (fun _ => ScoringResult.parsed [cAn150])
        = some [updateArticle cRaw cAn150] ∧
      (updateArticle cRaw cAn150).relevance_score = some 150 ∧
      ¬ ((updateArticle cRaw cAn150).relevance_score.getD 0 ≤ 100) := by
  refine ⟨by decide, by decide, by decide⟩

/-- C6, amended. After enrichment an article's relevance_score is
exactly the integer the scoring service returned, unclamped; the fixed
default 50 is substituted only when the reply omits the field. -/
theorem C6_amended_score_unclamped (a : Article) (v : Int) :
    (analyzeMerge [a]
          (fun _ => ScoringResult.parsed [{ relevance_score := some v }])).map
        (fun l => l.map fun x => x.relevance_score) = some [some v] ∧
      (analyzeMerge [a] (fun _ => ScoringResult.parsed [({} : Analysis)])).map
        (fun l => l.map fun x => x.relevance_score) = some [some 50] := by
  constructor <;>
    simp [analyzeMerge, numBatches, analyzeMergeGo, analyzeWithGemini,
      applyBatchAux, updateArticle]

/-- C7, counterexample. The category is stored unvalidated: a service
reply of `Politics` (a value the bot's own prompt even offers) is stored
although it is outside the claimed closed set, and the bot's fallback
path labels articles `General`, also outside the set. -/
theorem C7_counterexample :
    analyzeMerge [cRaw] (fun _ => ScoringResult.parsed [cAnPol])
        = some [updateArticle cRaw cAnPol] ∧
      (updateArticle cRaw cAnPol).category = some "Politics" ∧
      ¬ ("Politics" ∈ allowedCategories) ∧
      (tgFallback cTG).category = some "General" ∧
      ¬ ("General" ∈ allowedCategories) := by
  refine ⟨by decide, by decide, by decide, by decide, by decide⟩

/-- C7, amended. The stored category is whatever string the service
returned; `Other` is substituted only when the reply omits the field,
and the bot's fallback enrichment uses `General` — membership in the
fixed closed set is not enforced anywhere. -/
theorem C7_amended_category_unvalidated :
    (∀ (a : Article) (an : Analysis),
        (updateArticle a an).category = some (an.category.getD "Other")) ∧
      ∀ tg : TGArticle, (tgFallback tg).category = some "General" :=
  ⟨fun _ _ => rfl, fun _ => rfl⟩

/-- C8. The staleness test uses `timedelta.seconds`, the seconds
component after whole days, not the total elapsed time: one day and ten
seconds after a successful build (elapsed 86410 s, far beyond the
30-minute TTL) the check still reports the cache fresh and the request
is served from the old state with the old timestamp — no rebuild. -/
theorem C8_ttl_check_wraps_at_one_day :
    needsRefresh { articles_cache := [cTG], last_update := some 0 } 86410
        = false ∧
      latestNewsCacheStep { articles_cache := [cTG], last_update := some 0 }
          86410 []
        = { articles_cache := [cTG], last_update := some 0 } ∧
      1800 < 86410 - 0 := by
  refine ⟨by decide, by decide, by decide⟩

/-- C9, counterexample. The enrichment stage is not a pure transform: in
the store-passing reading of `self.collected_articles` (one slot per
dict object), the merge writes the updated record back into slot 0 via
`dict.update`, so after the stage the slot no longer holds the input
record — the input was mutated in place, not left unchanged. -/
theorem C9_counterexample :
    analyzeMerge [cRaw] (fun _ => ScoringResult.parsed [cAnAI])
        = some [updateArticle cRaw cAnAI] ∧
      updateArticle cRaw cAnAI ≠ cRaw := by
  refine ⟨by decide, by decide⟩

/-- C9, amended. The merge phase updates the shared article store in
place: for a one-article store the post-state slot holds the
field-updated record itself (the result of `dict.update` on the stored
dict), rather than the store being left intact with a fresh list
returned. -/
theorem C9_amended_in_place_update (a : Article) (an : Analysis) :
    analyzeMerge [a] (fun _ => ScoringResult.parsed [an])
      = some [updateArticle a an] := by
  simp [analyzeMerge, numBatches, analyzeMergeGo, analyzeWithGemini,
    applyBatchAux]

/-- C10. `analyze_articles` divides by the collected-article count only
on the path that actually reaches the average: with an empty collection
it returns early, and otherwise the divisor equals the (positive) number
of collected articles, so the division-by-zero branch is unreachable. -/
theorem C10_avg_divisor_positive (arts : List Article)
    (oracle : Nat → ScoringResult) :
    analyzeArticles arts oracle = AnalyzeResult.noArticles ∨
      analyzeArticles arts oracle = AnalyzeResult.crashed ∨
      ∃ sorted num, analyzeArticles arts oracle
          = AnalyzeResult.done sorted num arts.length ∧ 0 < arts.length := by
  by_cases he : arts.isEmpty
  · left
    simp [analyzeArticles, he]
  · cases hm : analyzeMerge arts oracle with
    | none =>
      right; left
      simp [analyzeArticles, he, hm]
    | some merged =>
      right; right
      have h1 : (sortByRelevance merged).length = merged.length :=
        (List.mergeSort_perm merged scoreLe).length_eq
      have h2 : merged.length = arts.length :=
        analyzeMergeGo_length oracle _ arts 0 merged hm
      have hlen : (sortByRelevance merged).length = arts.length := by
        rw [h1, h2]
      refine ⟨sortByRelevance merged, ((sortByRelevance merged).map relGetD0).sum,
        ?_, ?_⟩
      · simp [analyzeArticles, he, hm, hlen]
      · have hne : arts ≠ [] := by simpa using he
        exact List.length_pos.mpr hne

end NewsAgent
